import Mathlib

/-!
Verification of the high-command-mcp tool layer: a shallow embedding of the
tool registry (`highcommand/tool_registry.py`), the invocation wrapper
(`highcommand/tools.py`), the API client's response handling and
initialization guards (`highcommand/api_client.py`), and the dispatch front
(`highcommand/server.py`), together with theorems settling the specified
properties.

Python runtime values are modelled by `PyValue`, as far as the code inspects
them: the validation code looks only at runtime types (`isinstance`), so
container values (`list`, `dict`, `float`) are kept abstract. Python
exceptions are modelled by `PyError`, carrying the exception's type name
(`type(e).__name__`) and its message (`str(e)`). Fallible Python code is
embedded as `Except PyError`; a raised exception is `Except.error`.
-/

/-- A Python runtime value, to the extent the validation and envelope code
inspects it. `float`, `list` and `dict` payloads are never inspected by the
code under verification, so they are abstract here. -/
inductive PyValue where
  | none
  | bool (b : Bool)
  | int (n : Int)
  | str (s : String)
  | float
  | list
  | dict
deriving DecidableEq

/-- Python `type(v).__name__`. -/
def PyValue.typeName : PyValue → String
  | .none => "NoneType"
  | .bool _ => "bool"
  | .int _ => "int"
  | .str _ => "str"
  | .float => "float"
  | .list => "list"
  | .dict => "dict"

/-- Python `isinstance(v, int)`. In Python, `bool` is a subclass of `int`,
so `isinstance(True, int)` is `True`. -/
def isinstance_int : PyValue → Bool
  | .bool _ => true
  | .int _ => true
  | _ => false

/-- Python `isinstance(v, str)`. -/
def isinstance_str : PyValue → Bool
  | .str _ => true
  | _ => false

/-- Python `isinstance(v, bool)`. -/
def isinstance_bool : PyValue → Bool
  | .bool _ => true
  | _ => false

/-- A Python exception: its type name (`type(e).__name__`) and message
(`str(e)`). -/
structure PyError where
  etype : String
  msg : String
deriving DecidableEq

/-- Lookup in a Python `dict` modelled as an insertion-ordered association
list with unique keys (`d.get(k)` / `d[k]` / `k in d`). -/
def pyDictGet {α : Type} : List (String × α) → String → Option α
  | [], _ => Option.none
  | (k, v) :: rest, key => if k = key then some v else pyDictGet rest key

/-- `highcommand/tool_registry.py` `ToolParameter`. -/
structure ToolParameter where
  name : String
  type : String
  description : String
  required : Bool
deriving DecidableEq

/-- `highcommand/tool_registry.py` `ToolDefinition`. The `handler` callable
is opaque to the registry (it is only stored and returned, never invoked by
registry code), so it is modelled by an identifier. -/
structure ToolDefinition where
  name : String
  description : String
  handler : Nat
  parameters : List ToolParameter
deriving DecidableEq

/-- The error raised by `validate_arguments` when a required parameter is
absent: `ValueError(f"Missing required parameter: {param.name}")`. -/
def missingErr (param : ToolParameter) : PyError :=
  ⟨"ValueError", "Missing required parameter: " ++ param.name⟩

/-- The per-parameter body of `ToolDefinition.validate_arguments`: the
required/absent check, then (when the name is supplied) the `isinstance`
check selected by the declared parameter type. -/
def checkParam (arguments : List (String × PyValue)) (param : ToolParameter) :
    Except PyError Unit :=
  if param.required && (pyDictGet arguments param.name).isNone then
    Except.error (missingErr param)
  else
    match pyDictGet arguments param.name with
    | some v =>
      if param.type = "integer" then
        if !isinstance_int v then
          Except.error ⟨"ValueError",
            "Parameter '" ++ param.name ++ "' must be integer, got " ++ v.typeName⟩
        else Except.ok ()
      else if param.type = "string" then
        if !isinstance_str v then
          Except.error ⟨"ValueError",
            "Parameter '" ++ param.name ++ "' must be string, got " ++ v.typeName⟩
        else Except.ok ()
      else if param.type = "boolean" then
        if !isinstance_bool v then
          Except.error ⟨"ValueError",
            "Parameter '" ++ param.name ++ "' must be boolean, got " ++ v.typeName⟩
        else Except.ok ()
      else Except.ok ()
    | Option.none => Except.ok ()

/-- The loop of `ToolDefinition.validate_arguments`: parameters are checked
in declaration order; the first failing check raises. -/
def validateParams (arguments : List (String × PyValue)) :
    List ToolParameter → Except PyError Unit
  | [] => Except.ok ()
  | p :: rest =>
    match checkParam arguments p with
    | Except.ok _ => validateParams arguments rest
    | Except.error e => Except.error e

/-- `ToolDefinition.validate_arguments(self, arguments)`. -/
def ToolDefinition.validate_arguments (t : ToolDefinition)
    (arguments : List (String × PyValue)) : Except PyError Unit :=
  validateParams arguments t.parameters

/-- `highcommand/tool_registry.py` `ToolRegistry`: `self._tools`, a Python
dict from tool name to definition, modelled as an insertion-ordered
association list with unique keys. -/
structure ToolRegistry where
  tools : List (String × ToolDefinition)
deriving DecidableEq

/-- `ToolRegistry.get(self, name)`: `self._tools.get(name)`. -/
def ToolRegistry.get (reg : ToolRegistry) (name : String) : Option ToolDefinition :=
  pyDictGet reg.tools name

/-- `ToolRegistry.register(self, tool)`: raises `ValueError` when
`tool.name in self._tools`, otherwise inserts the new entry. State passing
makes the mutation explicit: the successful result is the new registry. -/
def ToolRegistry.register (reg : ToolRegistry) (tool : ToolDefinition) :
    Except PyError ToolRegistry :=
  if (pyDictGet reg.tools tool.name).isSome then
    Except.error ⟨"ValueError", "Tool '" ++ tool.name ++ "' already registered"⟩
  else
    Except.ok ⟨reg.tools ++ [(tool.name, tool)]⟩

/-- `ToolRegistry.validate_and_get(self, name, arguments)`: lookup (the
dataclass instance is truthy, so `if not tool:` tests for `None`), then
argument validation, then the tool itself. -/
def ToolRegistry.validate_and_get (reg : ToolRegistry) (name : String)
    (arguments : List (String × PyValue)) : Except PyError ToolDefinition :=
  match ToolRegistry.get reg name with
  | Option.none => Except.error ⟨"ValueError", "Unknown tool: " ++ name⟩
  | some tool =>
    match ToolDefinition.validate_arguments tool arguments with
    | Except.ok _ => Except.ok tool
    | Except.error e => Except.error e

/-- The argument of `HighCommandTools._run_tool` (`highcommand/tools.py`): a
Python callable, with what the wrapper observes of it: whether
`inspect.iscoroutinefunction(func)` holds, `type(func).__name__`, and the
outcome of awaiting `func()` (a returned value or a raised exception). -/
structure PyFunc where
  isCoroutineFunction : Bool
  typeName : String
  run : Except PyError PyValue

/-- The standardized response dict built by `HighCommandTools._run_tool`:
keys `status`, `data`, `error`, and (when `include_metrics` is set) a
`metrics` key. The `metrics` value (`elapsed_ms`, wall-clock time) is
outside the model; only the key's presence is kept. -/
structure Envelope where
  status : String
  data : PyValue
  error : Option String
  metrics : Bool
deriving DecidableEq

/-- `HighCommandTools._run_tool(func, include_metrics)`: raises `TypeError`
when `func` is not a coroutine function; otherwise awaits `func()` and wraps
the outcome, catching any exception `e` and formatting it as
`f"{type(e).__name__}: {str(e)}"`. The outer `Except` layer holds what the
wrapper itself raises to its caller. -/
def HighCommandTools.run_tool (func : PyFunc) (include_metrics : Bool) :
    Except PyError Envelope :=
  if !func.isCoroutineFunction then
    Except.error ⟨"TypeError", "Expected async function, got " ++ func.typeName⟩
  else
    match func.run with
    | Except.ok data =>
      Except.ok ⟨"success", data, Option.none, include_metrics⟩
    | Except.error e =>
      Except.ok ⟨"error", PyValue.none, some (e.etype ++ ": " ++ e.msg), include_metrics⟩

/-- An HTTP response as `HighCommandAPIClient._handle_response` observes it:
`response.status_code`, `response.reason_phrase`, and the parsed JSON body
`response.json()`. -/
structure HTTPResponse where
  status_code : Nat
  reason_phrase : String
  body : PyValue

/-- The error raised by the API client's resource operations when
`self._client` is `None` (the async context manager was never entered). -/
def notInitializedErr : PyError :=
  ⟨"RuntimeError", "Client not initialized. Use as async context manager."⟩

/-- `HighCommandAPIClient._handle_response(response, endpoint)`:
`response.raise_for_status()` raises `httpx.HTTPStatusError` for every
non-2xx status; the handler then categorizes by status code (5xx first,
then 429, then remaining 4xx, then everything else) and re-raises as
`RuntimeError` with the categorized message. -/
def handle_response (response : HTTPResponse) : Except PyError PyValue :=
  if 200 ≤ response.status_code ∧ response.status_code < 300 then
    Except.ok response.body
  else if 500 ≤ response.status_code ∧ response.status_code < 600 then
    Except.error ⟨"RuntimeError",
      "Server error (" ++ toString response.status_code ++ "): " ++ response.reason_phrase⟩
  else if response.status_code = 429 then
    Except.error ⟨"RuntimeError", "Rate limit exceeded"⟩
  else if 400 ≤ response.status_code ∧ response.status_code < 500 then
    Except.error ⟨"RuntimeError",
      "Client error (" ++ toString response.status_code ++ "): " ++ response.reason_phrase⟩
  else
    Except.error ⟨"RuntimeError",
      "HTTP error (" ++ toString response.status_code ++ "): " ++ response.reason_phrase⟩

/-- `HighCommandAPIClient` connection state: `self._client` is set exactly
when the async context manager has been entered (`__aenter__`). An
`httpx.AsyncClient` instance is truthy, so `if not self._client:` tests for
`None`. -/
structure HighCommandAPIClient where
  hasClient : Bool

/-- The network, abstracted: the response the remote API returns for a GET
of a given endpoint path. -/
def Network := String → HTTPResponse

/-- A resource operation's observable outcome: the returned value or raised
exception, paired with the list of endpoint paths actually requested. -/
def OpResult := Except PyError PyValue × List String

/-- `HighCommandAPIClient.get_war_status(self)`. -/
def HighCommandAPIClient.get_war_status (c : HighCommandAPIClient)
    (net : Network) : OpResult :=
  if !c.hasClient then (Except.error notInitializedErr, [])
  else (handle_response (net "/api/war/status"), ["/api/war/status"])

/-- `HighCommandAPIClient.get_planets(self)`. -/
def HighCommandAPIClient.get_planets (c : HighCommandAPIClient)
    (net : Network) : OpResult :=
  if !c.hasClient then (Except.error notInitializedErr, [])
  else (handle_response (net "/api/planets"), ["/api/planets"])

/-- `HighCommandAPIClient.get_statistics(self)`. -/
def HighCommandAPIClient.get_statistics (c : HighCommandAPIClient)
    (net : Network) : OpResult :=
  if !c.hasClient then (Except.error notInitializedErr, [])
  else (handle_response (net "/api/statistics"), ["/api/statistics"])

/-- `HighCommandAPIClient.get_planet_status(self, planet_index)`: the
endpoint is the f-string `f"/api/planets/{planet_index}"`. -/
def HighCommandAPIClient.get_planet_status (c : HighCommandAPIClient)
    (planet_index : Int) (net : Network) : OpResult :=
  if !c.hasClient then (Except.error notInitializedErr, [])
  else
    (handle_response (net ("/api/planets/" ++ toString planet_index)),
      ["/api/planets/" ++ toString planet_index])

/-- `HighCommandAPIClient.get_campaign_info(self)`. -/
def HighCommandAPIClient.get_campaign_info (c : HighCommandAPIClient)
    (net : Network) : OpResult :=
  if !c.hasClient then (Except.error notInitializedErr, [])
  else (handle_response (net "/api/campaigns/active"), ["/api/campaigns/active"])

/-- `HighCommandAPIClient.get_biomes(self)`. -/
def HighCommandAPIClient.get_biomes (c : HighCommandAPIClient)
    (net : Network) : OpResult :=
  if !c.hasClient then (Except.error notInitializedErr, [])
  else (handle_response (net "/api/biomes"), ["/api/biomes"])

/-- `HighCommandAPIClient.get_factions(self)`. -/
def HighCommandAPIClient.get_factions (c : HighCommandAPIClient)
    (net : Network) : OpResult :=
  if !c.hasClient then (Except.error notInitializedErr, [])
  else (handle_response (net "/api/factions"), ["/api/factions"])

/-- The outcomes of the seven tools' underlying fetches
(`async with HighCommandAPIClient() as client: client.get_...()`), abstracted
because they depend on the network. `planet_status` is a function of the
argument the dispatch front forwards (which server.py does not type-check,
so it is an arbitrary `PyValue`). -/
structure ToolOutcomes where
  war_status : Except PyError PyValue
  planets : Except PyError PyValue
  statistics : Except PyError PyValue
  campaign_info : Except PyError PyValue
  planet_status : PyValue → Except PyError PyValue
  biomes : Except PyError PyValue
  factions : Except PyError PyValue

/-- Each `HighCommandTools.get_..._tool` method wraps its `_fetch` closure
(a genuine coroutine function, so `iscoroutinefunction` holds and
`type(_fetch).__name__ == "function"`) with `_run_tool` at the default
`include_metrics=False`. -/
def HighCommandTools.fetch_tool (outcome : Except PyError PyValue) :
    Except PyError Envelope :=
  HighCommandTools.run_tool ⟨true, "function", outcome⟩ false

/-- `server.call_tool(name, arguments)` (`highcommand/server.py`): dispatch
over the seven registered tool names inside a `try`; an unknown name raises
`ValueError(f"Unknown tool: {name}")`; for `get_planet_status`,
`arguments.get("planet_index")` is `None` both when the key is absent and
when it maps to `None`, and then `ValueError("planet_index is required")` is
raised. The `except Exception` clause turns any exception `e` into the
envelope `{"status": "error", "data": None, "error": str(e)}`. The
serialization into `TextContent` is outside the model; the function's value
is the envelope it serializes. -/
def call_tool (name : String) (arguments : List (String × PyValue))
    (oc : ToolOutcomes) : Envelope :=
  let attempt : Except PyError Envelope :=
    if name = "get_war_status" then HighCommandTools.fetch_tool oc.war_status
    else if name = "get_planets" then HighCommandTools.fetch_tool oc.planets
    else if name = "get_statistics" then HighCommandTools.fetch_tool oc.statistics
    else if name = "get_campaign_info" then HighCommandTools.fetch_tool oc.campaign_info
    else if name = "get_planet_status" then
      match pyDictGet arguments "planet_index" with
      | Option.none => Except.error ⟨"ValueError", "planet_index is required"⟩
      | some PyValue.none => Except.error ⟨"ValueError", "planet_index is required"⟩
      | some v => HighCommandTools.fetch_tool (oc.planet_status v)
    else if name = "get_biomes" then HighCommandTools.fetch_tool oc.biomes
    else if name = "get_factions" then HighCommandTools.fetch_tool oc.factions
    else Except.error ⟨"ValueError", "Unknown tool: " ++ name⟩
  match attempt with
  | Except.ok env => env
  | Except.error e => ⟨"error", PyValue.none, some e.msg, false⟩

/-- A well-formed response envelope: `status` is `"success"` or `"error"`,
a success carries no error string, and an error carries a null `data` and a
non-null error string. -/
def Envelope.WellFormed (e : Envelope) : Prop :=
  (e.status = "success" ∨ e.status = "error") ∧
  (e.status = "success" → e.error = Option.none) ∧
  (e.status = "error" → e.data = PyValue.none ∧ e.error ≠ Option.none)

instance (e : Envelope) : Decidable e.WellFormed := by
  unfold Envelope.WellFormed
  infer_instance

/-- Exactly one of the envelope's `data`/`error` fields is non-null. -/
def Envelope.exactlyOne (e : Envelope) : Prop :=
  (e.data ≠ PyValue.none ∧ e.error = Option.none) ∨
  (e.data = PyValue.none ∧ e.error ≠ Option.none)

instance (e : Envelope) : Decidable e.exactlyOne := by
  unfold Envelope.exactlyOne
  infer_instance

/-- The type-mismatch test `validate_arguments` applies to a supplied value,
by declared parameter kind: for `"integer"`, `"string"` and `"boolean"` the
corresponding `isinstance` check; any other declared kind is not checked. -/
def kindBad (ptype : String) (v : PyValue) : Bool :=
  if ptype = "integer" then !isinstance_int v
  else if ptype = "string" then !isinstance_str v
  else if ptype = "boolean" then !isinstance_bool v
  else false

/-- The parameter is required and its name is absent from the supplied
arguments. -/
def paramMissing (arguments : List (String × PyValue)) (p : ToolParameter) : Bool :=
  p.required && (pyDictGet arguments p.name).isNone

/-- A value is supplied for the parameter and mismatches its declared kind. -/
def paramMismatch (arguments : List (String × PyValue)) (p : ToolParameter) : Bool :=
  match pyDictGet arguments p.name with
  | some v => kindBad p.type v
  | Option.none => false

/-- The type-mismatch error `validate_arguments` raises for parameter `p`
and supplied value `v`: its message names the parameter, the expected kind,
and the actual kind `v.typeName`. -/
def mismatchErr (p : ToolParameter) (v : PyValue) : PyError :=
  if p.type = "integer" then
    ⟨"ValueError", "Parameter '" ++ p.name ++ "' must be integer, got " ++ v.typeName⟩
  else if p.type = "string" then
    ⟨"ValueError", "Parameter '" ++ p.name ++ "' must be string, got " ++ v.typeName⟩
  else
    ⟨"ValueError", "Parameter '" ++ p.name ++ "' must be boolean, got " ++ v.typeName⟩

/-- The arguments are invalid for the tool: some required parameter is
absent, or some supplied parameter value mismatches its declared kind. -/
def BadArgs (t : ToolDefinition) (arguments : List (String × PyValue)) : Prop :=
  (∃ p ∈ t.parameters, paramMissing arguments p = true) ∨
  (∃ p ∈ t.parameters, paramMismatch arguments p = true)

instance (t : ToolDefinition) (arguments : List (String × PyValue)) :
    Decidable (BadArgs t arguments) := by
  unfold BadArgs
  infer_instance

/-- The `get_planet_status` tool definition as the test suite constructs it:
one required integer parameter `planet_index`. -/
def planetStatusTool : ToolDefinition :=
  ⟨"get_planet_status", "Get planet status", 0,
    [⟨"planet_index", "integer", "Index of the planet", true⟩]⟩

/-- A registry holding `planetStatusTool`, for concrete evaluations. -/
def testRegistry : ToolRegistry :=
  ⟨[("get_planet_status", planetStatusTool)]⟩

/-- A constant remote API, for concrete evaluations. -/
def testNet : Network := fun _ => ⟨200, "OK", PyValue.dict⟩

/-- Concrete fetch outcomes for the seven tools, for concrete evaluations. -/
def testOutcomes : ToolOutcomes :=
  ⟨Except.ok PyValue.dict, Except.ok PyValue.dict, Except.ok PyValue.dict,
    Except.ok PyValue.dict, fun _ => Except.ok PyValue.dict,
    Except.ok PyValue.dict, Except.ok PyValue.dict⟩

lemma pyDictGet_append {α : Type} (xs ys : List (String × α)) (k : String) :
    pyDictGet (xs ++ ys) k =
      (match pyDictGet xs k with
       | some v => some v
       | Option.none => pyDictGet ys k) := by
  induction xs with
  | nil => rfl
  | cons hd tl ih =>
    obtain ⟨k', v'⟩ := hd
    by_cases h : k' = k
    · simp [pyDictGet, h]
    · have h1 : pyDictGet (((k', v') :: tl) ++ ys) k = pyDictGet (tl ++ ys) k := by
        simp [pyDictGet, h]
      have h2 : pyDictGet ((k', v') :: tl) k = pyDictGet tl k := by
        simp [pyDictGet, h]
      rw [h1, h2, ih]

lemma string_append_left_cancel {a b c : String} (h : a ++ b = a ++ c) : b = c := by
  have h2 := congrArg String.data h
  simp only [String.data_append] at h2
  exact String.ext (List.append_cancel_left h2)

lemma cons_append_ne {α : Type} (c d : α) (cs ds xs ys : List α) (h : c ≠ d) :
    (c :: cs) ++ xs ≠ (d :: ds) ++ ys := by
  intro hcon
  simp only [List.cons_append, List.cons.injEq] at hcon
  exact h hcon.1

lemma mismatch_msg_ne_missing_msg (q p : ToolParameter) (v : PyValue) :
    mismatchErr q v ≠ missingErr p := by
  intro h
  have h2 := congrArg PyError.msg h
  unfold mismatchErr missingErr at h2
  split_ifs at h2 <;>
  · have hd := congrArg String.data h2
    simp only [String.data_append] at hd
    exact cons_append_ne 'P' 'M' _ _ _ _ (by decide) hd

lemma exceptUnit_cases (x : Except PyError Unit) :
    x = Except.ok () ∨ ∃ e, x = Except.error e := by
  cases x with
  | ok u => cases u; exact Or.inl rfl
  | error e => exact Or.inr ⟨e, rfl⟩

lemma checkParam_ok_iff (arguments : List (String × PyValue)) (p : ToolParameter) :
    checkParam arguments p = Except.ok () ↔
      paramMissing arguments p = false ∧ paramMismatch arguments p = false := by
  unfold checkParam paramMissing paramMismatch kindBad
  cases hl : pyDictGet arguments p.name with
  | none =>
    cases hreq : p.required <;> simp [hl, hreq, missingErr]
  | some v =>
    by_cases hi : p.type = "integer"
    · cases hv : isinstance_int v <;> simp [hl, hi, hv]
    · by_cases hs : p.type = "string"
      · cases hv : isinstance_str v <;> simp [hl, hi, hs, hv]
      · by_cases hb : p.type = "boolean"
        · cases hv : isinstance_bool v <;> simp [hl, hi, hs, hb, hv]
        · simp [hl, hi, hs, hb]

lemma checkParam_error_iff (arguments : List (String × PyValue)) (p : ToolParameter)
    (e : PyError) :
    checkParam arguments p = Except.error e ↔
      (paramMissing arguments p = true ∧ e = missingErr p) ∨
      (∃ v, pyDictGet arguments p.name = some v ∧ kindBad p.type v = true ∧
        e = mismatchErr p v) := by
  unfold checkParam paramMissing kindBad mismatchErr
  cases hl : pyDictGet arguments p.name with
  | none =>
    cases hreq : p.required <;> simp [hl, hreq] <;> exact eq_comm
  | some v =>
    by_cases hi : p.type = "integer"
    · cases hv : isinstance_int v <;> simp [hl, hi, hv] <;> exact eq_comm
    · by_cases hs : p.type = "string"
      · cases hv : isinstance_str v <;> simp [hl, hi, hs, hv] <;> exact eq_comm
      · by_cases hb : p.type = "boolean"
        · cases hv : isinstance_bool v <;> simp [hl, hi, hs, hb, hv] <;> exact eq_comm
        · simp [hl, hi, hs, hb]

lemma validateParams_ok_iff (arguments : List (String × PyValue))
    (ps : List ToolParameter) :
    validateParams arguments ps = Except.ok () ↔
      ∀ p ∈ ps, checkParam arguments p = Except.ok () := by
  induction ps with
  | nil => simp [validateParams]
  | cons p rest ih =>
    cases h : checkParam arguments p with
    | ok u =>
      cases u
      simp only [validateParams, h, ih, List.mem_cons]
      constructor
      · intro hall q hq
        rcases hq with hq | hq
        · subst hq; exact h
        · exact hall q hq
      · intro hall q hq
        exact hall q (Or.inr hq)
    | error e =>
      simp only [validateParams, h]
      constructor
      · intro hcon
        exact absurd hcon (by simp)
      · intro hall
        have := hall p (List.mem_cons_self p rest)
        rw [h] at this
        exact absurd this (by simp)

lemma validateParams_error_mem (arguments : List (String × PyValue))
    (ps : List ToolParameter) (e : PyError)
    (h : validateParams arguments ps = Except.error e) :
    ∃ p ∈ ps, checkParam arguments p = Except.error e := by
  induction ps with
  | nil => exact absurd h (by simp [validateParams])
  | cons p rest ih =>
    rw [validateParams] at h
    cases hc : checkParam arguments p with
    | ok u =>
      rw [hc] at h
      obtain ⟨q, hq, hqe⟩ := ih h
      exact ⟨q, List.mem_cons_of_mem p hq, hqe⟩
    | error e' =>
      rw [hc] at h
      cases h
      exact ⟨p, List.mem_cons_self p rest, hc⟩

lemma validateParams_fails_of_mem (arguments : List (String × PyValue))
    (ps : List ToolParameter) (p : ToolParameter) (e₀ : PyError)
    (hp : p ∈ ps) (hfail : checkParam arguments p = Except.error e₀) :
    ∃ e, validateParams arguments ps = Except.error e := by
  rcases exceptUnit_cases (validateParams arguments ps) with hok | herr
  · rw [validateParams_ok_iff] at hok
    have := hok p hp
    rw [hfail] at this
    exact absurd this (by simp)
  · exact herr

lemma fetch_tool_eq (outcome : Except PyError PyValue) :
    HighCommandTools.fetch_tool outcome =
      Except.ok (match outcome with
        | Except.ok d => ⟨"success", d, Option.none, false⟩
        | Except.error e =>
          ⟨"error", PyValue.none, some (e.etype ++ ": " ++ e.msg), false⟩) := by
  cases outcome <;> rfl

lemma fetch_tool_wellFormed (outcome : Except PyError PyValue) (env : Envelope)
    (h : HighCommandTools.fetch_tool outcome = Except.ok env) : env.WellFormed := by
  rw [fetch_tool_eq] at h
  cases outcome with
  | ok d =>
    cases h
    refine ⟨Or.inl rfl, fun _ => rfl, fun hc => ?_⟩
    have h2 : ("success" : String) = "error" := hc
    exact absurd h2 (by decide)
  | error e =>
    cases h
    refine ⟨Or.inr rfl, fun hc => ?_, fun _ => ⟨rfl, by simp⟩⟩
    have h2 : ("error" : String) = "success" := hc
    exact absurd h2 (by decide)

lemma success_wellFormed (d : PyValue) (m : Bool) :
    Envelope.WellFormed ⟨"success", d, Option.none, m⟩ := by
  refine ⟨Or.inl rfl, fun _ => rfl, fun hc => ?_⟩
  exact absurd (show ("success" : String) = "error" from hc) (by decide)

lemma errorEnvelope_wellFormed (msg : String) (m : Bool) :
    Envelope.WellFormed ⟨"error", PyValue.none, some msg, m⟩ := by
  refine ⟨Or.inr rfl, fun hc => ?_, fun _ => ⟨rfl, by simp⟩⟩
  exact absurd (show ("error" : String) = "success" from hc) (by decide)

lemma fetch_envelope_wellFormed (outcome : Except PyError PyValue) :
    (Envelope.WellFormed
      (match HighCommandTools.fetch_tool outcome with
       | Except.ok env => env
       | Except.error e => ⟨"error", PyValue.none, some e.msg, false⟩)) := by
  cases outcome with
  | ok d => exact success_wellFormed d false
  | error e => exact errorEnvelope_wellFormed _ false

/-- C1 counterexample: the claim's "exactly one of data/error is non-null"
fails on the code when the handler returns `None`: `_run_tool` then builds
`{"status": "success", "data": None, "error": None}`, in which neither
field is non-null. -/
theorem C1_counterexample :
    HighCommandTools.run_tool ⟨true, "function", Except.ok PyValue.none⟩ false =
      Except.ok ⟨"success", PyValue.none, Option.none, false⟩ ∧
    ¬ Envelope.exactlyOne ⟨"success", PyValue.none, Option.none, false⟩ :=
  ⟨rfl, by decide⟩

/-- C1 (amended): for every handler outcome, the envelope returned by
`_run_tool` has status `"success"` or `"error"`; a success envelope carries
a null error and the handler's returned value as data; an error envelope
carries a null data and a non-null error string; and whenever the handler's
returned value is itself non-null, exactly one of data/error is non-null. -/
theorem C1_envelope_invariant (func : PyFunc) (m : Bool) (env : Envelope)
    (h : HighCommandTools.run_tool func m = Except.ok env) :
    (env.status = "success" ∨ env.status = "error") ∧
    (env.status = "success" → env.error = Option.none ∧ func.run = Except.ok env.data) ∧
    (env.status = "error" → env.data = PyValue.none ∧ env.error ≠ Option.none) ∧
    (func.run ≠ Except.ok PyValue.none → env.exactlyOne) := by
  unfold HighCommandTools.run_tool at h
  cases hc : func.isCoroutineFunction with
  | false => rw [hc] at h; exact absurd h (by simp)
  | true =>
    rw [hc] at h
    cases hr : func.run with
    | ok d =>
      rw [hr] at h
      cases h
      refine ⟨Or.inl rfl, fun _ => ⟨rfl, rfl⟩, fun hc2 => ?_, fun hne => ?_⟩
      · have h2 : ("success" : String) = "error" := hc2
        exact absurd h2 (by decide)
      · left
        exact ⟨fun hd => hne (congrArg Except.ok hd), rfl⟩
    | error e =>
      rw [hr] at h
      cases h
      refine ⟨Or.inr rfl, fun hc2 => ?_, fun _ => ⟨rfl, by simp⟩,
        fun _ => Or.inr ⟨rfl, by simp⟩⟩
      have h2 : ("error" : String) = "success" := hc2
      exact absurd h2 (by decide)

/-- C1 witness: at a handler returning the value `1`, the wrapper's envelope
satisfies the invariant; in particular exactly one of data/error is
non-null. -/
theorem C1_envelope_invariant_witness :
    Envelope.exactlyOne ⟨"success", PyValue.int 1, Option.none, false⟩ := by
  have h := C1_envelope_invariant ⟨true, "function", Except.ok (PyValue.int 1)⟩ false
    ⟨"success", PyValue.int 1, Option.none, false⟩ rfl
  exact h.2.2.2 (by simp)

/-- C3: for every argument that is not a coroutine function, `_run_tool`
raises `TypeError` to its caller instead of returning an envelope, and the
outcome is independent of the handler's behavior — the handler is never
invoked and no network activity happens. -/
theorem C3_not_awaitable (func : PyFunc) (m : Bool)
    (h : func.isCoroutineFunction = false) :
    HighCommandTools.run_tool func m =
      Except.error ⟨"TypeError", "Expected async function, got " ++ func.typeName⟩ ∧
    (∀ run₂ : Except PyError PyValue,
      HighCommandTools.run_tool ⟨func.isCoroutineFunction, func.typeName, run₂⟩ m =
        HighCommandTools.run_tool func m) := by
  constructor
  · unfold HighCommandTools.run_tool
    rw [h]
    rfl
  · intro run₂
    unfold HighCommandTools.run_tool
    rw [h]
    rfl

/-- C3 witness: a synchronous callable named type `"function"` makes the
wrapper raise the not-awaitable `TypeError` at once. -/
theorem C3_not_awaitable_witness :
    HighCommandTools.run_tool ⟨false, "function", Except.ok PyValue.none⟩ false =
      Except.error ⟨"TypeError", "Expected async function, got function"⟩ := by
  have h := (C3_not_awaitable ⟨false, "function", Except.ok PyValue.none⟩ false rfl).1
  exact h.trans (by rfl)

/-- C8: every exception raised by the handler is caught by `_run_tool`
(which returns normally rather than re-raising) and turned into an error
envelope whose error string is the exception's type name, then `": "`, then
its message. -/
theorem C8_wrapper_catches_exceptions (func : PyFunc) (m : Bool) (e : PyError)
    (hc : func.isCoroutineFunction = true) (hr : func.run = Except.error e) :
    HighCommandTools.run_tool func m =
      Except.ok ⟨"error", PyValue.none, some (e.etype ++ ": " ++ e.msg), m⟩ := by
  unfold HighCommandTools.run_tool
  rw [hc, hr]
  rfl

/-- C8 witness: a handler raising `ValueError("boom")` yields the envelope
with status error, null data, and the error string `"ValueError: boom"`. -/
theorem C8_wrapper_catches_exceptions_witness :
    HighCommandTools.run_tool ⟨true, "function", Except.error ⟨"ValueError", "boom"⟩⟩ false =
      Except.ok ⟨"error", PyValue.none, some "ValueError: boom", false⟩ := by
  have h := C8_wrapper_catches_exceptions
    ⟨true, "function", Except.error ⟨"ValueError", "boom"⟩⟩ false ⟨"ValueError", "boom"⟩
    rfl rfl
  exact h.trans (by rfl)

/-- C6: contrary to the claim, a boolean supplied for a parameter declared
integer passes validation: Python's `bool` is a subclass of `int`, so
`isinstance(True, int)` holds and `validate_arguments` accepts
`{"planet_index": True}` instead of failing with a type mismatch. The spec
explicitly requires the opposite (no implicit coercion), so this is a bug
in the code's naive `isinstance`-based check. -/
theorem C6_bool_accepted_for_integer :
    ToolDefinition.validate_arguments planetStatusTool
      [("planet_index", PyValue.bool true)] = Except.ok () ∧
    isinstance_int (PyValue.bool true) = true :=
  ⟨rfl, rfl⟩

/-- C5: registering a tool whose name is already registered fails with the
duplicate-tool `ValueError`, `get` on that name still returns the
first-registered definition, the first registration touched no other entry,
and the failing call yields no successor registry state at all (the
registry is unchanged on failure). -/
theorem C5_register_duplicate (reg reg' : ToolRegistry) (t₀ t : ToolDefinition)
    (h₀ : ToolRegistry.register reg t₀ = Except.ok reg') (hname : t.name = t₀.name) :
    ToolRegistry.register reg' t =
      Except.error ⟨"ValueError", "Tool '" ++ t.name ++ "' already registered"⟩ ∧
    ToolRegistry.get reg' t.name = some t₀ ∧
    (∀ n, n ≠ t₀.name → ToolRegistry.get reg' n = ToolRegistry.get reg n) ∧
    (∀ reg'', ToolRegistry.register reg' t ≠ Except.ok reg'') := by
  unfold ToolRegistry.register at h₀
  by_cases hmem : (pyDictGet reg.tools t₀.name).isSome
  · rw [if_pos hmem] at h₀
    exact absurd h₀ (by simp)
  · rw [if_neg hmem] at h₀
    cases h₀
    have hnone : pyDictGet reg.tools t₀.name = Option.none := by
      cases hx : pyDictGet reg.tools t₀.name with
      | none => rfl
      | some u => rw [hx] at hmem; exact absurd rfl hmem
    have hget : ToolRegistry.get ⟨reg.tools ++ [(t₀.name, t₀)]⟩ t.name = some t₀ := by
      unfold ToolRegistry.get
      rw [hname, pyDictGet_append, hnone]
      simp [pyDictGet]
    have hreg : ToolRegistry.register ⟨reg.tools ++ [(t₀.name, t₀)]⟩ t =
        Except.error ⟨"ValueError", "Tool '" ++ t.name ++ "' already registered"⟩ := by
      unfold ToolRegistry.register
      have hsome : (pyDictGet (reg.tools ++ [(t₀.name, t₀)]) t.name).isSome := by
        have h2 : pyDictGet (reg.tools ++ [(t₀.name, t₀)]) t.name = some t₀ := hget
        rw [h2]
        rfl
      rw [if_pos hsome]
    refine ⟨hreg, hget, fun n hn => ?_, fun reg'' hcon => ?_⟩
    · unfold ToolRegistry.get
      rw [pyDictGet_append]
      cases hx : pyDictGet reg.tools n with
      | none =>
        simp [pyDictGet]
        exact fun hh => hn hh.symm
      | some u => simp
    · rw [hreg] at hcon
      exact absurd hcon (by simp)

/-- C5 witness: after registering the planet-status tool into an empty
registry, a second registration under the same name fails with the
duplicate-tool error and the first definition is still the one returned. -/
theorem C5_register_duplicate_witness :
    ToolRegistry.register testRegistry planetStatusTool =
      Except.error ⟨"ValueError", "Tool 'get_planet_status' already registered"⟩ ∧
    ToolRegistry.get testRegistry "get_planet_status" = some planetStatusTool := by
  have h := C5_register_duplicate ⟨[]⟩ testRegistry planetStatusTool planetStatusTool rfl rfl
  exact ⟨h.1.trans (by rfl), h.2.1⟩

/-- C9: every resource operation of the API client, called while the
connection context is not open (`self._client` unset), fails with the
distinct not-initialized `RuntimeError` and issues no network request. -/
theorem C9_requires_initialization (c : HighCommandAPIClient) (net : Network)
    (idx : Int) (h : c.hasClient = false) :
    c.get_war_status net = (Except.error notInitializedErr, []) ∧
    c.get_planets net = (Except.error notInitializedErr, []) ∧
    c.get_statistics net = (Except.error notInitializedErr, []) ∧
    c.get_planet_status idx net = (Except.error notInitializedErr, []) ∧
    c.get_campaign_info net = (Except.error notInitializedErr, []) ∧
    c.get_biomes net = (Except.error notInitializedErr, []) ∧
    c.get_factions net = (Except.error notInitializedErr, []) := by
  obtain ⟨b⟩ := c
  cases h
  exact ⟨rfl, rfl, rfl, rfl, rfl, rfl, rfl⟩

/-- C9 witness: with the context never entered, fetching war status or a
planet's status fails with the not-initialized error and requests no
endpoint. -/
theorem C9_requires_initialization_witness :
    HighCommandAPIClient.get_war_status ⟨false⟩ testNet =
      (Except.error notInitializedErr, []) ∧
    HighCommandAPIClient.get_planet_status ⟨false⟩ 0 testNet =
      (Except.error notInitializedErr, []) := by
  have h := C9_requires_initialization ⟨false⟩ testNet 0 rfl
  exact ⟨h.1, h.2.2.2.1⟩

/-- C7: the response handler classifies every HTTP response by status code
exactly as specified: 2xx returns the parsed JSON body; 429 fails with
"Rate limit exceeded"; 500-599 fails with the server-error message carrying
the status and reason; any other 400-499 fails with the client-error
message; any other non-2xx status fails with the unknown-HTTP-error
message — each raised as a `RuntimeError` the invocation wrapper formats. -/
theorem C7_response_classification (r : HTTPResponse) :
    (200 ≤ r.status_code ∧ r.status_code < 300 →
      handle_response r = Except.ok r.body) ∧
    (r.status_code = 429 →
      handle_response r = Except.error ⟨"RuntimeError", "Rate limit exceeded"⟩) ∧
    (500 ≤ r.status_code ∧ r.status_code < 600 →
      handle_response r = Except.error ⟨"RuntimeError",
        "Server error (" ++ toString r.status_code ++ "): " ++ r.reason_phrase⟩) ∧
    (400 ≤ r.status_code ∧ r.status_code < 500 ∧ r.status_code ≠ 429 →
      handle_response r = Except.error ⟨"RuntimeError",
        "Client error (" ++ toString r.status_code ++ "): " ++ r.reason_phrase⟩) ∧
    (r.status_code < 200 ∨ (300 ≤ r.status_code ∧ r.status_code < 400) ∨
        600 ≤ r.status_code →
      handle_response r = Except.error ⟨"RuntimeError",
        "HTTP error (" ++ toString r.status_code ++ "): " ++ r.reason_phrase⟩) := by
  refine ⟨fun h => ?_, fun h => ?_, fun h => ?_, fun h => ?_, fun h => ?_⟩
  · unfold handle_response
    rw [if_pos h]
  · unfold handle_response
    rw [if_neg (by omega), if_neg (by omega), if_pos h]
  · unfold handle_response
    rw [if_neg (by omega), if_pos h]
  · unfold handle_response
    rw [if_neg (by omega), if_neg (by omega), if_neg h.2.2, if_pos ⟨h.1, h.2.1⟩]
  · unfold handle_response
    rw [if_neg (by omega), if_neg (by omega), if_neg (by omega), if_neg (by omega)]

/-- C7 witness: concrete responses in each class — 200 returns the body,
429 rate-limits, 503 is a server error, 404 is a client error, and 301 is
an unknown HTTP error. -/
theorem C7_response_classification_witness :
    handle_response ⟨200, "OK", PyValue.dict⟩ = Except.ok PyValue.dict ∧
    handle_response ⟨429, "Too Many Requests", PyValue.none⟩ =
      Except.error ⟨"RuntimeError", "Rate limit exceeded"⟩ ∧
    handle_response ⟨503, "Service Unavailable", PyValue.none⟩ =
      Except.error ⟨"RuntimeError", "Server error (503): Service Unavailable"⟩ ∧
    handle_response ⟨404, "Not Found", PyValue.none⟩ =
      Except.error ⟨"RuntimeError", "Client error (404): Not Found"⟩ ∧
    handle_response ⟨301, "Moved Permanently", PyValue.none⟩ =
      Except.error ⟨"RuntimeError", "HTTP error (301): Moved Permanently"⟩ := by
  refine ⟨?_, ?_, ?_, ?_, ?_⟩
  · exact (C7_response_classification ⟨200, "OK", PyValue.dict⟩).1 (by decide)
  · exact (C7_response_classification ⟨429, "Too Many Requests", PyValue.none⟩).2.1 rfl
  · have h := (C7_response_classification ⟨503, "Service Unavailable", PyValue.none⟩).2.2.1
      (by decide)
    exact h.trans (by rfl)
  · have h := (C7_response_classification ⟨404, "Not Found", PyValue.none⟩).2.2.2.1
      (by decide)
    exact h.trans (by rfl)
  · have h := (C7_response_classification ⟨301, "Moved Permanently", PyValue.none⟩).2.2.2.2
      (by decide)
    exact h.trans (by rfl)

/-- C2: for every tool name and argument mapping, the dispatch front's
`call_tool` never raises — it returns a well-formed envelope — and for any
name outside the seven registered tools the envelope is exactly
status error, null data, and error "Unknown tool: {name}". -/
theorem C2_dispatch_well_formed (name : String)
    (arguments : List (String × PyValue)) (oc : ToolOutcomes) :
    (call_tool name arguments oc).WellFormed ∧
    (name ≠ "get_war_status" → name ≠ "get_planets" → name ≠ "get_statistics" →
     name ≠ "get_campaign_info" → name ≠ "get_planet_status" → name ≠ "get_biomes" →
     name ≠ "get_factions" →
      call_tool name arguments oc =
        ⟨"error", PyValue.none, some ("Unknown tool: " ++ name), false⟩) := by
  simp only [call_tool]
  by_cases h1 : name = "get_war_status"
  · rw [if_pos h1]
    refine ⟨?_, fun hc _ _ _ _ _ _ => absurd h1 hc⟩
    cases hoc : oc.war_status with
    | ok d => exact success_wellFormed d false
    | error e => exact errorEnvelope_wellFormed _ false
  rw [if_neg h1]
  by_cases h2 : name = "get_planets"
  · rw [if_pos h2]
    refine ⟨?_, fun _ hc _ _ _ _ _ => absurd h2 hc⟩
    cases hoc : oc.planets with
    | ok d => exact success_wellFormed d false
    | error e => exact errorEnvelope_wellFormed _ false
  rw [if_neg h2]
  by_cases h3 : name = "get_statistics"
  · rw [if_pos h3]
    refine ⟨?_, fun _ _ hc _ _ _ _ => absurd h3 hc⟩
    cases hoc : oc.statistics with
    | ok d => exact success_wellFormed d false
    | error e => exact errorEnvelope_wellFormed _ false
  rw [if_neg h3]
  by_cases h4 : name = "get_campaign_info"
  · rw [if_pos h4]
    refine ⟨?_, fun _ _ _ hc _ _ _ => absurd h4 hc⟩
    cases hoc : oc.campaign_info with
    | ok d => exact success_wellFormed d false
    | error e => exact errorEnvelope_wellFormed _ false
  rw [if_neg h4]
  by_cases h5 : name = "get_planet_status"
  · rw [if_pos h5]
    refine ⟨?_, fun _ _ _ _ hc _ _ => absurd h5 hc⟩
    cases hl : pyDictGet arguments "planet_index" with
    | none => exact errorEnvelope_wellFormed _ false
    | some v =>
      cases v with
      | none => exact errorEnvelope_wellFormed _ false
      | bool b => exact fetch_envelope_wellFormed (oc.planet_status (PyValue.bool b))
      | int n => exact fetch_envelope_wellFormed (oc.planet_status (PyValue.int n))
      | str s => exact fetch_envelope_wellFormed (oc.planet_status (PyValue.str s))
      | float => exact fetch_envelope_wellFormed (oc.planet_status PyValue.float)
      | list => exact fetch_envelope_wellFormed (oc.planet_status PyValue.list)
      | dict => exact fetch_envelope_wellFormed (oc.planet_status PyValue.dict)
  rw [if_neg h5]
  by_cases h6 : name = "get_biomes"
  · rw [if_pos h6]
    refine ⟨?_, fun _ _ _ _ _ hc _ => absurd h6 hc⟩
    cases hoc : oc.biomes with
    | ok d => exact success_wellFormed d false
    | error e => exact errorEnvelope_wellFormed _ false
  rw [if_neg h6]
  by_cases h7 : name = "get_factions"
  · rw [if_pos h7]
    refine ⟨?_, fun _ _ _ _ _ _ hc => absurd h7 hc⟩
    cases hoc : oc.factions with
    | ok d => exact success_wellFormed d false
    | error e => exact errorEnvelope_wellFormed _ false
  rw [if_neg h7]
  exact ⟨errorEnvelope_wellFormed _ false, fun _ _ _ _ _ _ _ => rfl⟩

/-- C2 witness: dispatching the unregistered tool name "get_unicorns" yields
exactly the unknown-tool error envelope. -/
theorem C2_dispatch_well_formed_witness :
    call_tool "get_unicorns" [] testOutcomes =
      ⟨"error", PyValue.none, some "Unknown tool: get_unicorns", false⟩ := by
  have h := (C2_dispatch_well_formed "get_unicorns" [] testOutcomes).2
    (by decide) (by decide) (by decide) (by decide) (by decide) (by decide) (by decide)
  exact h.trans (by rfl)

/-- C4: `validate_and_get(name, arguments)` fails if and only if the name
is not registered (with the error "Unknown tool: {name}"), or some required
parameter is absent (with the missing-parameter error naming it), or some
supplied parameter value mismatches its declared integer/string/boolean
kind (with the mismatch error naming the parameter and the expected kind);
otherwise it returns the registered `ToolDefinition` unchanged. The failure
messages are pinned exactly: a failure's error is `missingErr p` for some
offending required-but-absent parameter `p`, or `mismatchErr p v` for some
parameter `p` whose supplied value `v` fails its kind's `isinstance`
check. -/
theorem C4_validate_and_get_characterization (reg : ToolRegistry) (name : String)
    (arguments : List (String × PyValue)) :
    (ToolRegistry.get reg name = Option.none →
      ToolRegistry.validate_and_get reg name arguments =
        Except.error ⟨"ValueError", "Unknown tool: " ++ name⟩) ∧
    (∀ t, ToolRegistry.get reg name = some t →
      ((∃ e, ToolRegistry.validate_and_get reg name arguments = Except.error e) ↔
        BadArgs t arguments) ∧
      (¬ BadArgs t arguments →
        ToolRegistry.validate_and_get reg name arguments = Except.ok t) ∧
      (∀ e, ToolRegistry.validate_and_get reg name arguments = Except.error e →
        (∃ p ∈ t.parameters, paramMissing arguments p = true ∧ e = missingErr p) ∨
        (∃ p ∈ t.parameters, ∃ v, pyDictGet arguments p.name = some v ∧
          kindBad p.type v = true ∧ e = mismatchErr p v))) := by
  constructor
  · intro hnone
    unfold ToolRegistry.validate_and_get
    rw [hnone]
  · intro t ht
    have hred : ToolRegistry.validate_and_get reg name arguments =
        (match validateParams arguments t.parameters with
         | Except.ok _ => Except.ok t
         | Except.error e => Except.error e) := by
      unfold ToolRegistry.validate_and_get
      rw [ht]
      rfl
    rcases exceptUnit_cases (validateParams arguments t.parameters) with hok | ⟨e₀, herr⟩
    · rw [hok] at hred
      have hall := (validateParams_ok_iff arguments t.parameters).mp hok
      refine ⟨⟨fun hcon => ?_, fun hbad => ?_⟩, fun _ => hred, fun e he => ?_⟩
      · obtain ⟨e, he⟩ := hcon
        rw [hred] at he
        exact nomatch he
      · exfalso
        rcases hbad with ⟨p, hp, hmiss⟩ | ⟨p, hp, hmism⟩
        · have hcp := (checkParam_ok_iff arguments p).mp (hall p hp)
          rw [hcp.1] at hmiss
          exact absurd hmiss (by simp)
        · have hcp := (checkParam_ok_iff arguments p).mp (hall p hp)
          rw [hcp.2] at hmism
          exact absurd hmism (by simp)
      · rw [hred] at he
        exact nomatch he
    · rw [herr] at hred
      obtain ⟨p, hp, hpe⟩ := validateParams_error_mem arguments t.parameters e₀ herr
      rw [checkParam_error_iff] at hpe
      have hbad : BadArgs t arguments := by
        rcases hpe with ⟨hmiss, hee⟩ | ⟨v, hv, hkb, hee⟩
        · exact Or.inl ⟨p, hp, hmiss⟩
        · refine Or.inr ⟨p, hp, ?_⟩
          unfold paramMismatch
          rw [hv]
          exact hkb
      refine ⟨⟨fun _ => hbad, fun _ => ⟨e₀, hred⟩⟩, fun hnbad => absurd hbad hnbad,
        fun e he => ?_⟩
      rw [hred] at he
      injection he with he2
      cases he2
      rcases hpe with ⟨hmiss, hee⟩ | ⟨v, hv, hkb, hee⟩
      · exact Or.inl ⟨p, hp, hmiss, hee⟩
      · exact Or.inr ⟨p, hp, v, hv, hkb, hee⟩

/-- C4 witness: on a registry holding the planet-status tool, supplying the
required integer argument validates and returns the registered definition
unchanged. -/
theorem C4_validate_and_get_characterization_witness :
    ToolRegistry.validate_and_get testRegistry "get_planet_status"
      [("planet_index", PyValue.int 42)] = Except.ok planetStatusTool := by
  have h := ((C4_validate_and_get_characterization testRegistry "get_planet_status"
    [("planet_index", PyValue.int 42)]).2 planetStatusTool rfl).2.1
  exact h (by decide)

/-- C10: a parameter whose name is supplied with the value `None` is treated
as present, not missing — validation never reports the missing-parameter
error for it — and when the parameter is declared integer, string or
boolean, the parameter's check instead fails the type check with the
mismatch error for the value `None` (whose reported actual kind is
`NoneType`), making the overall validation fail. -/
theorem C10_none_value_is_present (t : ToolDefinition)
    (arguments : List (String × PyValue)) (p : ToolParameter)
    (hp : p ∈ t.parameters) (hv : pyDictGet arguments p.name = some PyValue.none) :
    (∀ e, ToolDefinition.validate_arguments t arguments = Except.error e →
      e ≠ missingErr p) ∧
    (p.type = "integer" ∨ p.type = "string" ∨ p.type = "boolean" →
      checkParam arguments p = Except.error (mismatchErr p PyValue.none) ∧
      ∃ e, ToolDefinition.validate_arguments t arguments = Except.error e) ∧
    PyValue.typeName PyValue.none = "NoneType" := by
  refine ⟨?_, ?_, rfl⟩
  · intro e he hcon
    unfold ToolDefinition.validate_arguments at he
    obtain ⟨q, hq, hqe⟩ := validateParams_error_mem arguments t.parameters e he
    rw [checkParam_error_iff] at hqe
    rcases hqe with ⟨hmiss, hee⟩ | ⟨v, hlv, hkb, hee⟩
    · have hqp : missingErr q = missingErr p := by rw [← hee, hcon]
      have hname : q.name = p.name :=
        string_append_left_cancel (congrArg PyError.msg hqp)
      unfold paramMissing at hmiss
      rw [hname, hv] at hmiss
      exact absurd hmiss (by simp)
    · have hqp : mismatchErr q v = missingErr p := by rw [← hee, hcon]
      exact mismatch_msg_ne_missing_msg q p v hqp
  · intro htype
    have hkb : kindBad p.type PyValue.none = true := by
      unfold kindBad
      rcases htype with hi | hs | hb
      · rw [if_pos hi]
        rfl
      · rw [if_neg (by rw [hs]; decide), if_pos hs]
        rfl
      · rw [if_neg (by rw [hb]; decide), if_neg (by rw [hb]; decide), if_pos hb]
        rfl
    have hfail : checkParam arguments p = Except.error (mismatchErr p PyValue.none) := by
      rw [checkParam_error_iff]
      exact Or.inr ⟨PyValue.none, hv, hkb, rfl⟩
    exact ⟨hfail, validateParams_fails_of_mem arguments t.parameters p _ hp hfail⟩

/-- C10 witness: with `planet_index` supplied as `None`, the planet-status
tool's validation does not report it missing; it fails its integer type
check with the NoneType mismatch error. -/
theorem C10_none_value_is_present_witness :
    checkParam [("planet_index", PyValue.none)]
      ⟨"planet_index", "integer", "Index of the planet", true⟩ =
      Except.error (mismatchErr
        ⟨"planet_index", "integer", "Index of the planet", true⟩ PyValue.none) := by
  have h := (C10_none_value_is_present planetStatusTool
    [("planet_index", PyValue.none)]
    ⟨"planet_index", "integer", "Index of the planet", true⟩
    (by decide) rfl).2.1
  exact (h (Or.inl rfl)).1
